import Mathlib

/-!
Shallow embedding of the billing-metered job-execution core of the
Home-GPU-Cloud backend (Python/FastAPI source), covering:

* `app/models/wallet.py`   — `Wallet` (balance, reserved, version, `available_balance`)
* `app/models/transaction.py` — `Transaction`, `TransactionType`
* `app/models/job.py`      — `Job`, `JobStatus`, `is_terminal`, `is_billable`
* `app/services/billing.py` — `BillingService.add_credits`, `debit_for_job`,
  `check_and_bill`, `can_start_job`
* `app/services/job_service.py` — `JobService.update_status`, `cancel_job`,
  `create_job`, `queue_job`
* `app/api/v1/jobs.py`     — the `create_job` endpoint's admission/creation flow
* `worker/tasks/gpu_tasks.py` — `_billing_heartbeat` (fail-open transport handling)

Monetary values (Python `Decimal`) are modelled exactly: every `Decimal`
this program ever constructs is an integer multiple of 10⁻¹⁸ dollars (the
per-minute cost has 18 fractional digits, every other constant at most 2),
and the only monetary operations are addition, subtraction and comparison,
which `Decimal` performs exactly on these values.  A `Decimal` value x is
therefore represented as the integer x·10¹⁸ (an `ℤ` value), under
which the program's `Decimal` arithmetic corresponds exactly to integer
arithmetic.  Timestamps
(`datetime.utcnow()`) are modelled as an explicit `now : Nat` argument
supplied by the caller; database ids as `Nat`.  A raised Python exception is
an `Except`/`Option` error value, and the mutation-then-commit pattern of the
services is explicit state passing: an operation that raises before mutating
returns its input state unchanged.
-/

namespace GpuCloud

instance {ε α : Type} [DecidableEq ε] [DecidableEq α] : DecidableEq (Except ε α) := fun a b =>
  match a, b with
  | Except.ok x, Except.ok y =>
    if h : x = y then isTrue (by rw [h]) else isFalse (by intro hc; cases hc; exact h rfl)
  | Except.error x, Except.error y =>
    if h : x = y then isTrue (by rw [h]) else isFalse (by intro hc; cases hc; exact h rfl)
  | Except.ok _, Except.error _ => isFalse (by intro hc; cases hc)
  | Except.error _, Except.ok _ => isFalse (by intro hc; cases hc)

/- `app/config.py`, `Settings`: billing and submission constants.
The Python values are `float`s; the billing service converts them with
`Decimal(str(...))`, so the numbers that actually enter the ledger are the
decimal values of the floats' shortest round-trip representations. -/
namespace settings

/-- `CREDITS_PER_MINUTE: float = 0.50 / 60`; `str` of that IEEE-754 binary64
float is `"0.008333333333333333"`, so `Decimal(str(settings.CREDITS_PER_MINUTE))`
in `check_and_bill` is `Decimal("0.008333333333333333")`, i.e. this many
10⁻¹⁸-dollar units. -/
def CREDITS_PER_MINUTE : ℤ := 8333333333333333

/-- `MINIMUM_BALANCE_TO_START: float = 0.50`; `str(0.50) = "0.5"`, and
`Decimal("0.5")` is exactly half a dollar. -/
def MINIMUM_BALANCE_TO_START : ℤ := 500000000000000000

/-- `DEFAULT_GPU_IMAGE: str = "python:3.11-slim"`. -/
def DEFAULT_GPU_IMAGE : String := "python:3.11-slim"

/-- `DEFAULT_CPU_COUNT: int = 2`. -/
def DEFAULT_CPU_COUNT : Int := 2

end settings

/-- `app/models/wallet.py`, class `Wallet`: columns relevant to the ledger.
`balance` and `reserved` are `Numeric(10,2)` columns holding `Decimal`s;
`version` is the optimistic-locking counter. -/
structure Wallet where
  id : Nat
  user_id : Nat
  balance : ℤ
  reserved : ℤ
  version : Nat
deriving DecidableEq

/-- `Wallet.available_balance`: `self.balance - self.reserved`. -/
def Wallet.available_balance (w : Wallet) : ℤ := w.balance - w.reserved

/-- `Wallet.can_start_job`: `self.available_balance >= minimum_balance`. -/
def Wallet.can_start_job (w : Wallet) (minimum_balance : ℤ) : Bool :=
  decide (minimum_balance ≤ w.available_balance)

/-- `app/models/transaction.py`, class `TransactionType`. -/
inductive TransactionType where
  | credit
  | debit
  | refund
  | reservation
  | release
deriving DecidableEq

/-- `app/models/transaction.py`, class `Transaction`: immutable audit record.
`amount` is signed (positive = credit, negative = debit); `balance_before`
and `balance_after` are snapshots taken by the mutating service call. -/
structure Transaction where
  wallet_id : Nat
  job_id : Option Nat
  type : TransactionType
  amount : ℤ
  balance_before : ℤ
  balance_after : ℤ
  description : String
deriving DecidableEq

/- `app/models/job.py`, class `JobStatus`: status string constants. -/
namespace JobStatus

def PENDING : String := "pending"

def PREPARING : String := "preparing"

def RUNNING : String := "running"

def COMPLETED : String := "completed"

def FAILED : String := "failed"

def CANCELLED : String := "cancelled"

def KILLED_NO_CREDITS : String := "killed_no_credits"

end JobStatus

/-- The `resource_config` JSONB keys set by the `create_job` endpoint
(`{"memory_limit": memory, "cpu_count": ..., "timeout_seconds": timeout}`). -/
structure ResourceConfig where
  memory_limit : String
  cpu_count : Int
  timeout_seconds : Int
deriving DecidableEq

/-- `app/models/job.py`, class `Job`: the job record.  Timestamps are
abstract instants (`Nat`); `none` models a NULL column. -/
@[ext]
structure Job where
  id : Nat
  user_id : Nat
  status : String
  script_path : String
  dataset_path : Option String
  output_path : Option String
  logs_path : Option String
  container_id : Option String
  docker_image : String
  resource_config : ResourceConfig
  created_at : Nat
  queued_at : Option Nat
  started_at : Option Nat
  completed_at : Option Nat
  runtime_seconds : Int
  total_cost : ℤ
  error_message : Option String
  exit_code : Option Int
deriving DecidableEq

/-- `Job.is_terminal`: status in {COMPLETED, FAILED, CANCELLED, KILLED_NO_CREDITS}. -/
def Job.is_terminal (j : Job) : Bool :=
  j.status = JobStatus.COMPLETED ∨ j.status = JobStatus.FAILED ∨
    j.status = JobStatus.CANCELLED ∨ j.status = JobStatus.KILLED_NO_CREDITS

/-- `Job.is_billable`: status in {PREPARING, RUNNING}. -/
def Job.is_billable (j : Job) : Bool :=
  j.status = JobStatus.PREPARING ∨ j.status = JobStatus.RUNNING

/-- The keyword arguments of `JobService.update_status` (the worker's
status-update webhook payload, minus authentication): `None` defaults are
`none`.  Python truthiness: `container_id`/`error_message` are applied only
when truthy (non-`None` and non-empty), `runtime_seconds`/`exit_code` when
`is not None`. -/
structure StatusUpdate where
  status : String
  container_id : Option String
  error_message : Option String
  runtime_seconds : Option Int
  exit_code : Option Int
deriving DecidableEq

namespace JobService

/-- `JobService.update_status` (`app/services/job_service.py`): applies a
status-update message to a job.  `now` is `datetime.utcnow()` at processing
time.  Mirrors the source line by line: unconditional `job.status = status`,
truthiness-guarded field copies, then the timestamp rules (`queued_at` on
PENDING, `started_at` only if not already set on RUNNING, `completed_at` on
any of the four terminal statuses). -/
def update_status (job : Job) (u : StatusUpdate) (now : Nat) : Job :=
  let job := { job with status := u.status }
  let job :=
    match u.container_id with
    | some c => if c = "" then job else { job with container_id := some c }
    | none => job
  let job :=
    match u.error_message with
    | some m => if m = "" then job else { job with error_message := some m }
    | none => job
  let job :=
    match u.runtime_seconds with
    | some r => { job with runtime_seconds := r }
    | none => job
  let job :=
    match u.exit_code with
    | some e => { job with exit_code := some e }
    | none => job
  if u.status = JobStatus.PENDING then
    { job with queued_at := some now }
  else if u.status = JobStatus.RUNNING then
    match job.started_at with
    | none => { job with started_at := some now }
    | some _ => job
  else if u.status = JobStatus.COMPLETED ∨ u.status = JobStatus.FAILED ∨
      u.status = JobStatus.CANCELLED ∨ u.status = JobStatus.KILLED_NO_CREDITS then
    { job with completed_at := some now }
  else
    job

/-- A status-update message carrying only a status (all other kwargs left at
their `None` defaults), as sent by `queue_job` and `cancel_job`. -/
def statusOnly (status : String) : StatusUpdate :=
  { status := status, container_id := none, error_message := none,
    runtime_seconds := none, exit_code := none }

/-- Errors raised by `JobService.cancel_job`. -/
inductive CancelError where
  | permissionError
  | valueError
deriving DecidableEq

/-- `JobService.cancel_job`: user-initiated cancel.  Raises `PermissionError`
for a foreign job, `ValueError` ("Cannot cancel a completed job") when the
job `is_terminal`, otherwise delegates to `update_status(CANCELLED)`. -/
def cancel_job (job : Job) (user_id : Nat) (now : Nat) : Except CancelError Job :=
  if job.user_id ≠ user_id then Except.error CancelError.permissionError
  else if job.is_terminal then Except.error CancelError.valueError
  else Except.ok (update_status job (statusOnly JobStatus.CANCELLED) now)

/-- `JobService.create_job`: builds a fresh `Job` row with column defaults
(status PENDING, runtime 0, cost 0.00, NULL timestamps), then fills the
NFS-relative paths from the assigned id.  `fresh_id` is the id the database
assigns on insert. -/
def create_job (fresh_id : Nat) (user_id : Nat) (script_name : String)
    (docker_image : String) (rc : ResourceConfig) (now : Nat) : Job :=
  let job : Job :=
    { id := fresh_id, user_id := user_id, status := JobStatus.PENDING,
      script_path := "", dataset_path := none, output_path := none,
      logs_path := none, container_id := none, docker_image := docker_image,
      resource_config := rc, created_at := now, queued_at := none,
      started_at := none, completed_at := none, runtime_seconds := 0,
      total_cost := 0, error_message := none, exit_code := none }
  { job with
    script_path := "jobs/" ++ toString fresh_id ++ "/input/" ++ script_name,
    output_path := some ("jobs/" ++ toString fresh_id ++ "/output"),
    logs_path := some ("jobs/" ++ toString fresh_id ++ "/logs") }

/-- `JobService.queue_job`: `update_status(job_id, JobStatus.PENDING)`. -/
def queue_job (job : Job) (now : Nat) : Job :=
  update_status job (statusOnly JobStatus.PENDING) now

end JobService

/-- Errors raised by the mutating ledger operations: `ValueError("Wallet not
found")` and `InsufficientCreditsError`. -/
inductive BillingError where
  | walletNotFound
  | insufficientCredits
deriving DecidableEq

/-- The ledger-side state touched by one wallet's mutations: the wallet row
(`none` when the queried wallet id does not exist) and the transaction table
restricted to that wallet, in insertion order. -/
structure LedgerState where
  wallet? : Option Wallet
  transactions : List Transaction
deriving DecidableEq

namespace BillingService

/-- `BillingService.add_credits` (`app/services/billing.py`): top-up.
Raises when the wallet row is missing; otherwise snapshots `balance_before`,
adds `amount` to the balance, bumps `version`, and inserts one
`Transaction(type=credit, amount=amount)` in the same commit.  No validation
of `amount` is performed. -/
def add_credits (s : LedgerState) (amount : ℤ) (description : String) :
    LedgerState × Except BillingError Transaction :=
  match s.wallet? with
  | none => (s, Except.error BillingError.walletNotFound)
  | some wallet =>
    let balance_before := wallet.balance
    let wallet := { wallet with balance := wallet.balance + amount,
                                version := wallet.version + 1 }
    let t : Transaction :=
      { wallet_id := wallet.id, job_id := none, type := TransactionType.credit,
        amount := amount, balance_before := balance_before,
        balance_after := wallet.balance, description := description }
    ({ wallet? := some wallet, transactions := s.transactions ++ [t] },
      Except.ok t)

/-- `BillingService.debit_for_job`: usage charge.  Raises when the wallet row
is missing; raises `InsufficientCreditsError` when
`wallet.available_balance < amount` (before any mutation, so the error
branch leaves the state untouched); otherwise subtracts `amount`, bumps
`version`, and inserts one `Transaction(type=debit, amount=-amount)` in the
same commit. -/
def debit_for_job (s : LedgerState) (job_id : Option Nat) (amount : ℤ)
    (description : String) : LedgerState × Except BillingError Transaction :=
  match s.wallet? with
  | none => (s, Except.error BillingError.walletNotFound)
  | some wallet =>
    if wallet.available_balance < amount then
      (s, Except.error BillingError.insufficientCredits)
    else
      let balance_before := wallet.balance
      let wallet := { wallet with balance := wallet.balance - amount,
                                  version := wallet.version + 1 }
      let t : Transaction :=
        { wallet_id := wallet.id, job_id := job_id,
          type := TransactionType.debit, amount := -amount,
          balance_before := balance_before, balance_after := wallet.balance,
          description := description }
      ({ wallet? := some wallet, transactions := s.transactions ++ [t] },
        Except.ok t)

/-- `BillingService.can_start_job`: resolve the user's wallet (`none` when
the user has no wallet row → `False`), then
`wallet.can_start_job(Decimal(str(settings.MINIMUM_BALANCE_TO_START)))`. -/
def can_start_job (wallet? : Option Wallet) : Bool :=
  match wallet? with
  | none => false
  | some w => w.can_start_job settings.MINIMUM_BALANCE_TO_START

end BillingService

/-- The state `check_and_bill` reads and writes: the job row looked up by
`job_id` (`none` when missing), the wallet row of the job's owner as
returned by `get_wallet(job.user_id)` (`none` when missing), and that
wallet's transaction list. -/
structure BillState where
  job? : Option Job
  wallet? : Option Wallet
  transactions : List Transaction
deriving DecidableEq

namespace BillingService

/-- `BillingService.check_and_bill`: the heartbeat's billing decision.
Missing job or wallet → `(False, Decimal("0.00"))`, nothing mutated.
Otherwise debit `cost = Decimal(str(settings.CREDITS_PER_MINUTE))` via
`debit_for_job`; on success update the job's `total_cost` (accumulated) and
`runtime_seconds` (overwritten with `runtime_minutes * 60`), then return
`False` when the refreshed wallet's `available_balance <= 0` (kill switch),
else `True`, both with the post-debit balance.  On
`InsufficientCreditsError` return `(False, wallet.balance)` with everything
unchanged. -/
def check_and_bill (s : BillState) (runtime_minutes : Int) :
    BillState × Bool × ℤ :=
  match s.job? with
  | none => (s, false, 0)
  | some job =>
    match s.wallet? with
    | none => (s, false, 0)
    | some wallet =>
      let cost := settings.CREDITS_PER_MINUTE
      match debit_for_job { wallet? := some wallet, transactions := s.transactions }
          (some job.id) cost ("GPU minute " ++ toString runtime_minutes) with
      | (ls, Except.ok _) =>
        match ls.wallet? with
        | some wallet =>
          let job := { job with total_cost := job.total_cost + cost,
                                runtime_seconds := runtime_minutes * 60 }
          let s := { job? := some job, wallet? := some wallet,
                     transactions := ls.transactions : BillState }
          if wallet.available_balance ≤ 0 then (s, false, wallet.balance)
          else (s, true, wallet.balance)
        | none => (s, false, 0)
      | (_, Except.error _) => (s, false, wallet.balance)

end BillingService

/-- One worker heartbeat: the state after the worker's `i`-th call of
`check_and_bill` (the worker reports `runtime_minutes = i` on heartbeat `i`,
one billing interval per heartbeat; `runtime_minutes` does not influence the
billing decision). -/
def stepBill (s : BillState) (i : Nat) : BillState :=
  (BillingService.check_and_bill s (Int.ofNat i)).1

/-- State after the first `k` heartbeats. -/
def runBills (s : BillState) : Nat → BillState
  | 0 => s
  | k + 1 => stepBill (runBills s k) (k + 1)

/-- The `should_continue` flag returned to the worker by heartbeat `i`
(1-indexed); `False` triggers the kill switch (`execute_gpu_job` stops the
container and reports `killed_no_credits`). -/
def billResult (s : BillState) (i : Nat) : Bool :=
  (BillingService.check_and_bill (runBills s (i - 1)) (Int.ofNat i)).2.1

/-- The `should_continue` field extracted by the worker from the heartbeat
response body: `data.get("should_continue", False)`. -/
structure HeartbeatResponseBody where
  should_continue : Option Bool
  message : Option String
deriving DecidableEq

/-- `worker/tasks/gpu_tasks.py`, `_billing_heartbeat`: the whole HTTP call
and JSON parse sit in a `try`; any transport exception (modelled as
`Except.error` with the exception text) is caught and the helper returns
`True` — fail-open.  On a delivered response it returns
`data.get("should_continue", False)`. -/
def billing_heartbeat (response : Except String HeartbeatResponseBody) : Bool :=
  match response with
  | Except.error _ => true
  | Except.ok data => data.should_continue.getD false

/-- The control-plane state the `create_job` endpoint touches: the caller's
wallet row and the job table. -/
structure SubmissionState where
  wallet? : Option Wallet
  jobs : List Job
deriving DecidableEq

/-- `app/api/v1/jobs.py`, `create_job` endpoint (storage and queue-dispatch
side effects elided — they touch no Wallet/Job/Transaction row except the
`dataset_path` update, which needs a dataset upload): admission check via
`BillingService.can_start_job` raising HTTP 402 (`InsufficientFunds`) before
any job row exists; then `JobService.create_job` inserts the row and
`queue_job` re-enters PENDING (stamping `queued_at`). -/
def create_job_endpoint (s : SubmissionState) (user_id : Nat)
    (script_name : String) (memory : String) (timeout : Int) (now : Nat) :
    SubmissionState × Except String Job :=
  if BillingService.can_start_job s.wallet? = false then
    (s, Except.error "402 InsufficientFunds")
  else
    let rc : ResourceConfig :=
      { memory_limit := memory, cpu_count := settings.DEFAULT_CPU_COUNT,
        timeout_seconds := timeout }
    let job := JobService.create_job s.jobs.length user_id script_name
      settings.DEFAULT_GPU_IMAGE rc now
    let job := JobService.queue_job job now
    ({ s with jobs := s.jobs ++ [job] }, Except.ok job)

/-- An amount is representable with at most two fractional decimal
digits (an integer number of cents) iff it is a multiple of 10¹⁶ base
units. -/
def hasAtMostTwoDecimals (m : ℤ) : Prop := m % 10 ^ 16 = 0

instance (m : ℤ) : Decidable (hasAtMostTwoDecimals m) := by
  unfold hasAtMostTwoDecimals
  infer_instance

/-! ### Sample rows used to instantiate the theorems on concrete inputs -/

/-- A sample resource configuration. -/
def sampleRC : ResourceConfig :=
  { memory_limit := "8g", cpu_count := 2, timeout_seconds := 3600 }

/-- A sample running job (id 1, owner 10). -/
def sampleJob : Job :=
  { id := 1, user_id := 10, status := JobStatus.RUNNING, script_path := "jobs/1/input/train.py",
    dataset_path := none, output_path := some "jobs/1/output", logs_path := some "jobs/1/logs",
    container_id := some "c1", docker_image := "python:3.11-slim", resource_config := sampleRC,
    created_at := 0, queued_at := some 0, started_at := some 1,
    completed_at := none, runtime_seconds := 0, total_cost := 0,
    error_message := none, exit_code := none }

/-- A sample wallet (id 5, owner 10) holding `b` base units. -/
def sampleWallet (b : ℤ) : Wallet :=
  { id := 5, user_id := 10, balance := b, reserved := 0, version := 1 }

/-- A ledger holding `sampleWallet` with one dollar and an empty audit log. -/
def ledger1 : LedgerState :=
  { wallet? := some (sampleWallet 1000000000000000000), transactions := [] }

/-- A billing state: `sampleJob` running against a one-dollar `sampleWallet`. -/
def billReady : BillState :=
  { job? := some sampleJob, wallet? := some (sampleWallet 1000000000000000000),
    transactions := [] }

/-- A billing state whose wallet holds exactly `n` per-minute costs, with
`sampleJob` resolvable and an empty transaction log. -/
def billN (n : ℤ) : BillState :=
  { job? := some sampleJob,
    wallet? := some (sampleWallet (n * settings.CREDITS_PER_MINUTE)), transactions := [] }

/-- `sampleJob` after reaching the terminal status COMPLETED. -/
def completedSample : Job := { sampleJob with status := JobStatus.COMPLETED }

/-- A ledger holding `sampleWallet` with 0.40 dollars (below the 0.50
admission minimum) and an empty audit log. -/
def ledger04 : LedgerState :=
  { wallet? := some (sampleWallet 400000000000000000), transactions := [] }

/-- A submission state whose caller wallet holds 0.40 dollars and whose job
table is empty. -/
def submission04 : SubmissionState :=
  { wallet? := some (sampleWallet 400000000000000000), jobs := [] }

/-! ### Helper lemmas on `check_and_bill` -/

/-- Unfolding of `check_and_bill` when job and wallet resolve and the wallet
covers the per-minute cost: the debit goes through, the job accumulates the
cost and overwrites its runtime, one debit transaction is appended, and the
flag is the post-debit kill-switch check. -/
theorem check_and_bill_sufficient (j : Job) (w : Wallet) (txs : List Transaction) (m : Int)
    (hge : settings.CREDITS_PER_MINUTE ≤ w.available_balance) :
    BillingService.check_and_bill ⟨some j, some w, txs⟩ m =
      (⟨some { j with total_cost := j.total_cost + settings.CREDITS_PER_MINUTE,
                      runtime_seconds := m * 60 },
        some { w with balance := w.balance - settings.CREDITS_PER_MINUTE,
                      version := w.version + 1 },
        txs ++ [{ wallet_id := w.id, job_id := some j.id, type := TransactionType.debit,
                  amount := -settings.CREDITS_PER_MINUTE, balance_before := w.balance,
                  balance_after := w.balance - settings.CREDITS_PER_MINUTE,
                  description := "GPU minute " ++ toString m }]⟩,
       decide (0 < w.available_balance - settings.CREDITS_PER_MINUTE),
       w.balance - settings.CREDITS_PER_MINUTE) := by
  have hge2 : ¬ (w.balance - w.reserved < settings.CREDITS_PER_MINUTE) := by
    simp only [Wallet.available_balance] at hge
    omega
  simp only [BillingService.check_and_bill, BillingService.debit_for_job,
    Wallet.available_balance, if_neg hge2]
  rcases le_or_lt (w.balance - settings.CREDITS_PER_MINUTE - w.reserved) 0 with h0 | h0
  · rw [if_pos h0]
    have hd : decide (0 < w.balance - w.reserved - settings.CREDITS_PER_MINUTE) = false := by
      rw [decide_eq_false_iff_not]
      omega
    rw [hd]
  · rw [if_neg (not_le.mpr h0)]
    have hd : decide (0 < w.balance - w.reserved - settings.CREDITS_PER_MINUTE) = true := by
      rw [decide_eq_true_eq]
      omega
    rw [hd]

/-- Unfolding of `check_and_bill` when the wallet does not cover the cost:
`InsufficientCreditsError` is caught and nothing changes. -/
theorem check_and_bill_insufficient (j : Job) (w : Wallet) (txs : List Transaction) (m : Int)
    (hlt : w.available_balance < settings.CREDITS_PER_MINUTE) :
    BillingService.check_and_bill ⟨some j, some w, txs⟩ m =
      (⟨some j, some w, txs⟩, false, w.balance) := by
  simp only [BillingService.check_and_bill, BillingService.debit_for_job, if_pos hlt]

/-! ### Projection lemmas on `update_status` -/

/-- `update_status` always overwrites the status with the message's status
(there is no terminal-state guard in the source). -/
theorem update_status_sets_status (job : Job) (u : StatusUpdate) (now : Nat) :
    (JobService.update_status job u now).status = u.status := by
  obtain ⟨us, uc, ue, ur, ux⟩ := u
  simp only [JobService.update_status]
  repeat' split
  all_goals rfl

/-- `container_id` after `update_status`: copied when the message carries a
truthy (non-`None`, non-empty) value, otherwise kept. -/
theorem update_status_container_id (j : Job) (u : StatusUpdate) (now : Nat) :
    (JobService.update_status j u now).container_id =
      (match u.container_id with
      | some c => if c = "" then j.container_id else some c
      | none => j.container_id) := by
  obtain ⟨us, uc, ue, ur, ux⟩ := u
  simp only [JobService.update_status]
  repeat' split
  all_goals simp_all [JobStatus.PENDING, JobStatus.RUNNING, JobStatus.COMPLETED,
    JobStatus.FAILED, JobStatus.CANCELLED, JobStatus.KILLED_NO_CREDITS]

/-- `error_message` after `update_status`: copied when truthy, else kept. -/
theorem update_status_error_message (j : Job) (u : StatusUpdate) (now : Nat) :
    (JobService.update_status j u now).error_message =
      (match u.error_message with
      | some m => if m = "" then j.error_message else some m
      | none => j.error_message) := by
  obtain ⟨us, uc, ue, ur, ux⟩ := u
  simp only [JobService.update_status]
  repeat' split
  all_goals simp_all [JobStatus.PENDING, JobStatus.RUNNING, JobStatus.COMPLETED,
    JobStatus.FAILED, JobStatus.CANCELLED, JobStatus.KILLED_NO_CREDITS]

/-- `runtime_seconds` after `update_status`: overwritten when the message has
one (`is not None`), else kept. -/
theorem update_status_runtime_seconds (j : Job) (u : StatusUpdate) (now : Nat) :
    (JobService.update_status j u now).runtime_seconds =
      u.runtime_seconds.getD j.runtime_seconds := by
  obtain ⟨us, uc, ue, ur, ux⟩ := u
  simp only [JobService.update_status]
  repeat' split
  all_goals simp_all [JobStatus.PENDING, JobStatus.RUNNING, JobStatus.COMPLETED,
    JobStatus.FAILED, JobStatus.CANCELLED, JobStatus.KILLED_NO_CREDITS]

/-- `exit_code` after `update_status`: overwritten when present, else kept. -/
theorem update_status_exit_code (j : Job) (u : StatusUpdate) (now : Nat) :
    (JobService.update_status j u now).exit_code =
      (match u.exit_code with
      | some e => some e
      | none => j.exit_code) := by
  obtain ⟨us, uc, ue, ur, ux⟩ := u
  simp only [JobService.update_status]
  repeat' split
  all_goals simp_all [JobStatus.PENDING, JobStatus.RUNNING, JobStatus.COMPLETED,
    JobStatus.FAILED, JobStatus.CANCELLED, JobStatus.KILLED_NO_CREDITS]

/-- `queued_at` is re-stamped to the processing time on every PENDING
message. -/
theorem update_status_queued_at (j : Job) (u : StatusUpdate) (now : Nat) :
    (JobService.update_status j u now).queued_at =
      (if u.status = JobStatus.PENDING then some now else j.queued_at) := by
  obtain ⟨us, uc, ue, ur, ux⟩ := u
  simp only [JobService.update_status]
  repeat' split
  all_goals simp_all [JobStatus.PENDING, JobStatus.RUNNING, JobStatus.COMPLETED,
    JobStatus.FAILED, JobStatus.CANCELLED, JobStatus.KILLED_NO_CREDITS]

/-- `started_at` is stamped only on the first RUNNING message (kept once
set). -/
theorem update_status_started_at (j : Job) (u : StatusUpdate) (now : Nat) :
    (JobService.update_status j u now).started_at =
      (if u.status = JobStatus.RUNNING then some (j.started_at.getD now) else j.started_at) := by
  obtain ⟨us, uc, ue, ur, ux⟩ := u
  simp only [JobService.update_status]
  repeat' split
  all_goals simp_all [JobStatus.PENDING, JobStatus.RUNNING, JobStatus.COMPLETED,
    JobStatus.FAILED, JobStatus.CANCELLED, JobStatus.KILLED_NO_CREDITS]

/-- `completed_at` is re-stamped to the processing time on every terminal
message. -/
theorem update_status_completed_at (j : Job) (u : StatusUpdate) (now : Nat) :
    (JobService.update_status j u now).completed_at =
      (if u.status = JobStatus.COMPLETED ∨ u.status = JobStatus.FAILED ∨
          u.status = JobStatus.CANCELLED ∨ u.status = JobStatus.KILLED_NO_CREDITS then some now
       else j.completed_at) := by
  obtain ⟨us, uc, ue, ur, ux⟩ := u
  simp only [JobService.update_status]
  repeat' split
  all_goals simp_all [JobStatus.PENDING, JobStatus.RUNNING, JobStatus.COMPLETED,
    JobStatus.FAILED, JobStatus.CANCELLED, JobStatus.KILLED_NO_CREDITS]

/-- All other `Job` columns are untouched by `update_status`. -/
theorem update_status_frame (j : Job) (u : StatusUpdate) (now : Nat) :
    (JobService.update_status j u now).id = j.id ∧
    (JobService.update_status j u now).user_id = j.user_id ∧
    (JobService.update_status j u now).script_path = j.script_path ∧
    (JobService.update_status j u now).dataset_path = j.dataset_path ∧
    (JobService.update_status j u now).output_path = j.output_path ∧
    (JobService.update_status j u now).logs_path = j.logs_path ∧
    (JobService.update_status j u now).docker_image = j.docker_image ∧
    (JobService.update_status j u now).resource_config = j.resource_config ∧
    (JobService.update_status j u now).created_at = j.created_at ∧
    (JobService.update_status j u now).total_cost = j.total_cost := by
  obtain ⟨us, uc, ue, ur, ux⟩ := u
  simp only [JobService.update_status]
  repeat' split
  all_goals simp_all [JobStatus.PENDING, JobStatus.RUNNING, JobStatus.COMPLETED,
    JobStatus.FAILED, JobStatus.CANCELLED, JobStatus.KILLED_NO_CREDITS]

/-! ### C1 -/

/-- C1: `check_and_bill(job_id, runtime_minutes)` — a missing job or a missing
owner wallet yields `should_continue = false` with balance `0.00` and mutates
nothing; a successful debit of the per-minute cost appends one debit
transaction, returns the post-debit balance, and `should_continue` is true
exactly when the post-debit `available_balance` is still positive (false when
it is ≤ 0, even though the debit succeeded); an `InsufficientFunds` failure
yields `should_continue = false` with the current balance and mutates
nothing. -/
theorem C1_check_and_bill_spec (s : BillState) (m : Int) :
    (s.job? = none → BillingService.check_and_bill s m = (s, false, 0)) ∧
    (∀ j, s.job? = some j → s.wallet? = none →
      BillingService.check_and_bill s m = (s, false, 0)) ∧
    (∀ j w, s.job? = some j → s.wallet? = some w →
      settings.CREDITS_PER_MINUTE ≤ w.available_balance →
      (BillingService.check_and_bill s m).1.transactions.length = s.transactions.length + 1 ∧
      (BillingService.check_and_bill s m).2.1 =
        decide (0 < w.available_balance - settings.CREDITS_PER_MINUTE) ∧
      (BillingService.check_and_bill s m).2.2 = w.balance - settings.CREDITS_PER_MINUTE) ∧
    (∀ j w, s.job? = some j → s.wallet? = some w →
      w.available_balance < settings.CREDITS_PER_MINUTE →
      BillingService.check_and_bill s m = (s, false, w.balance)) := by
  obtain ⟨j?, w?, txs⟩ := s
  refine ⟨?_, ?_, ?_, ?_⟩
  · intro h
    subst h
    simp [BillingService.check_and_bill]
  · intro j hj hw
    subst hj
    subst hw
    simp [BillingService.check_and_bill]
  · intro j w hj hw hge
    subst hj
    subst hw
    rw [check_and_bill_sufficient j w txs m hge]
    simp
  · intro j w hj hw hlt
    subst hj
    subst hw
    exact check_and_bill_insufficient j w txs m hlt

/-- Concrete instantiation of `C1_check_and_bill_spec`: a missing job gives
`(false, 0.00)`, and a one-dollar wallet billed one minute continues with the
post-debit balance. -/
theorem C1_check_and_bill_spec_witness :
    BillingService.check_and_bill { job? := none, wallet? := none, transactions := [] } 3 =
      ({ job? := none, wallet? := none, transactions := [] }, false, 0) ∧
    (BillingService.check_and_bill billReady 1).2.1 = true ∧
    (BillingService.check_and_bill billReady 1).2.2 = 991666666666666667 := by
  refine ⟨(C1_check_and_bill_spec _ 3).1 rfl, ?_, ?_⟩
  · have h := ((C1_check_and_bill_spec billReady 1).2.2.1 sampleJob
      (sampleWallet 1000000000000000000) rfl rfl (by decide)).2.1
    rw [h]
    decide
  · have h := ((C1_check_and_bill_spec billReady 1).2.2.1 sampleJob
      (sampleWallet 1000000000000000000) rfl rfl (by decide)).2.2
    rw [h]
    decide

/-! ### C2 -/

/-- Wallet evolution under the heartbeat loop: starting from a resolvable job
and a wallet whose available balance covers `N` billing intervals, after
`k ≤ N` heartbeats the job and wallet still resolve, the balance has
decreased by exactly `k` per-minute costs, and the version has been bumped
`k` times. -/
theorem runBills_wallet (j : Job) (w : Wallet) (txs : List Transaction) (N : Nat)
    (hbal : w.available_balance = N * settings.CREDITS_PER_MINUTE) :
    ∀ k, k ≤ N → ∃ j2 txs2, runBills ⟨some j, some w, txs⟩ k =
      ⟨some j2,
       some (Wallet.mk w.id w.user_id (w.balance - k * settings.CREDITS_PER_MINUTE)
         w.reserved (w.version + k)), txs2⟩ := by
  intro k
  induction k with
  | zero =>
    intro _
    refine ⟨j, txs, ?_⟩
    simp [runBills]
  | succ k ih =>
    intro hk
    obtain ⟨j2, txs2, heq⟩ := ih (Nat.le_of_succ_le hk)
    have hge : settings.CREDITS_PER_MINUTE ≤
        (Wallet.mk w.id w.user_id (w.balance - k * settings.CREDITS_PER_MINUTE)
          w.reserved (w.version + k)).available_balance := by
      simp only [Wallet.available_balance, settings.CREDITS_PER_MINUTE] at hbal ⊢
      omega
    have hwr : (Wallet.mk w.id w.user_id
          (w.balance - ((k + 1 : ℕ) : ℤ) * settings.CREDITS_PER_MINUTE)
          w.reserved (w.version + (k + 1)))
        = Wallet.mk w.id w.user_id
            (w.balance - (k : ℤ) * settings.CREDITS_PER_MINUTE - settings.CREDITS_PER_MINUTE)
            w.reserved (w.version + k + 1) := by
      rw [Wallet.mk.injEq]
      refine ⟨rfl, rfl, ?_, rfl, ?_⟩
      · push_cast
        ring
      · omega
    rw [hwr, runBills, stepBill, heq, check_and_bill_sufficient _ _ _ _ hge]
    exact ⟨_, _, rfl⟩

/-- C2 counterexample: a wallet holding exactly `N = 1` per-minute cost.  The
claim asserts the first `N = 1` heartbeats return `should_continue = true`
and heartbeat `N + 1 = 2` is the first to return `false`; in fact heartbeat 1
already returns `false` — the debit succeeds but leaves
`available_balance = 0`, and the post-debit `<= 0` kill-switch check fires on
the same heartbeat. -/
theorem C2_counterexample : billResult (billN 1) 1 = false := by decide

/-- C2 amended: for a wallet whose available balance is exactly `N ≥ 1`
per-minute costs, heartbeats `1 .. N-1` return `should_continue = true` and
heartbeat `N` — not `N + 1` — is the first to return `false` (its debit still
succeeds, so the Nth minute is paid for, but the post-debit
`available_balance <= 0` check fires at exactly zero), so the worker kills
the job on heartbeat `N`. -/
theorem C2_kill_switch_at_heartbeat_N (N : Nat) (hN : 1 ≤ N) (j : Job) (w : Wallet)
    (txs : List Transaction)
    (hbal : w.available_balance = N * settings.CREDITS_PER_MINUTE) :
    (∀ i, 1 ≤ i → i < N → billResult ⟨some j, some w, txs⟩ i = true) ∧
    billResult ⟨some j, some w, txs⟩ N = false := by
  constructor
  · intro i h1 hiN
    obtain ⟨j2, txs2, heq⟩ := runBills_wallet j w txs N hbal (i - 1) (by omega)
    have hge : settings.CREDITS_PER_MINUTE ≤
        (Wallet.mk w.id w.user_id (w.balance - ((i - 1 : ℕ) : ℤ) * settings.CREDITS_PER_MINUTE)
          w.reserved (w.version + (i - 1))).available_balance := by
      simp only [Wallet.available_balance, settings.CREDITS_PER_MINUTE] at hbal ⊢
      omega
    unfold billResult
    rw [heq, check_and_bill_sufficient _ _ _ _ hge]
    show decide _ = true
    rw [decide_eq_true_eq]
    simp only [Wallet.available_balance, settings.CREDITS_PER_MINUTE] at hbal ⊢
    omega
  · obtain ⟨j2, txs2, heq⟩ := runBills_wallet j w txs N hbal (N - 1) (by omega)
    have hge : settings.CREDITS_PER_MINUTE ≤
        (Wallet.mk w.id w.user_id (w.balance - ((N - 1 : ℕ) : ℤ) * settings.CREDITS_PER_MINUTE)
          w.reserved (w.version + (N - 1))).available_balance := by
      simp only [Wallet.available_balance, settings.CREDITS_PER_MINUTE] at hbal ⊢
      omega
    unfold billResult
    rw [heq, check_and_bill_sufficient _ _ _ _ hge]
    show decide _ = false
    rw [decide_eq_false_iff_not]
    simp only [Wallet.available_balance, settings.CREDITS_PER_MINUTE] at hbal ⊢
    omega

/-- Concrete instantiation of `C2_kill_switch_at_heartbeat_N` for `N = 2`:
heartbeat 1 continues, heartbeat 2 kills. -/
theorem C2_kill_switch_at_heartbeat_N_witness :
    billResult (billN 2) 1 = true ∧ billResult (billN 2) 2 = false := by
  have h := C2_kill_switch_at_heartbeat_N 2 (by decide) sampleJob
    (sampleWallet (2 * settings.CREDITS_PER_MINUTE)) [] (by decide)
  exact ⟨h.1 1 (by decide) (by decide), h.2⟩

/-! ### C9 -/

/-- C9: any transport exception during the worker's billing-heartbeat call is
caught and `_billing_heartbeat` returns `should_continue = true` (fail-open),
so a transport failure never triggers the kill switch (which fires only on a
returned `false`). -/
theorem C9_heartbeat_fail_open (err : String) :
    billing_heartbeat (Except.error err) = true := rfl

/-! ### C3 -/

/-- C3 counterexample: a COMPLETED (terminal) job is moved back to RUNNING by
`update_status` — the worker-webhook path has no terminal-state guard, so a
status-transition operation on a terminal job does change its status, and it
is neither a no-op nor an error. -/
theorem C3_counterexample :
    completedSample.is_terminal = true ∧
    (JobService.update_status completedSample (JobService.statusOnly JobStatus.RUNNING) 7).status
      = JobStatus.RUNNING := by decide

/-- C3 amended: the two status-transition paths treat terminal jobs
inconsistently — user-initiated `cancel_job` on a terminal job raises an
explicit `ValueError` and changes nothing, but `update_status` (the worker
webhook) unconditionally overwrites the status of any job, terminal
included, with the message's status. -/
theorem C3_terminal_guard_inconsistent (job : Job) (u : StatusUpdate) (uid now : Nat)
    (hterm : job.is_terminal = true) (huid : job.user_id = uid) :
    JobService.cancel_job job uid now = Except.error JobService.CancelError.valueError ∧
    (JobService.update_status job u now).status = u.status := by
  constructor
  · unfold JobService.cancel_job
    rw [if_neg (by simp [huid]), if_pos hterm]
  · exact update_status_sets_status job u now

/-- Concrete instantiation of `C3_terminal_guard_inconsistent` on a COMPLETED
job. -/
theorem C3_terminal_guard_inconsistent_witness :
    JobService.cancel_job completedSample 10 9 = Except.error JobService.CancelError.valueError ∧
    (JobService.update_status completedSample (JobService.statusOnly JobStatus.PENDING) 9).status
      = JobStatus.PENDING :=
  C3_terminal_guard_inconsistent completedSample (JobService.statusOnly JobStatus.PENDING) 10 9
    (by decide) (by decide)

/-! ### C4 -/

/-- C4: a debit of any amount strictly greater than the wallet's
`available_balance` raises `InsufficientCreditsError` and returns the ledger
state completely unchanged — no transaction appended, no balance change, no
version bump; and whenever a debit succeeds, the new `available_balance`
equals the old one minus the amount and is never below zero. -/
theorem C4_debit_no_negative (s : LedgerState) (w : Wallet) (jid : Option Nat)
    (amount : ℤ) (descr : String) (hw : s.wallet? = some w) :
    (w.available_balance < amount →
      BillingService.debit_for_job s jid amount descr
        = (s, Except.error BillingError.insufficientCredits)) ∧
    (∀ s2 t, BillingService.debit_for_job s jid amount descr = (s2, Except.ok t) →
      ∃ w2, s2.wallet? = some w2 ∧
        w2.available_balance = w.available_balance - amount ∧ 0 ≤ w2.available_balance) := by
  obtain ⟨w?, txs⟩ := s
  cases hw
  constructor
  · intro hlt
    simp only [BillingService.debit_for_job, if_pos hlt]
  · intro s2 t heq
    by_cases hlt : w.available_balance < amount
    · simp only [BillingService.debit_for_job, if_pos hlt] at heq
      exact absurd (congrArg Prod.snd heq) (by simp)
    · simp only [BillingService.debit_for_job, if_neg hlt] at heq
      injection heq with h1 h2
      subst h1
      injection h2 with h3
      subst h3
      refine ⟨{ w with balance := w.balance - amount, version := w.version + 1 }, rfl, ?_, ?_⟩
      · simp only [Wallet.available_balance]
        ring
      · simp only [Wallet.available_balance] at hlt ⊢
        omega

/-- Concrete instantiation of `C4_debit_no_negative`: debiting 0.50 from a
wallet holding 0.40 is rejected with zero side effects. -/
theorem C4_debit_no_negative_witness :
    BillingService.debit_for_job ledger04 (some 1) 500000000000000000 "GPU usage charge"
      = (ledger04, Except.error BillingError.insufficientCredits) :=
  (C4_debit_no_negative ledger04 (sampleWallet 400000000000000000) (some 1) 500000000000000000
    "GPU usage charge" rfl).1 (by decide)

/-! ### C5 -/

/-- C5: every successful ledger mutation — `add_credits` or `debit_for_job` —
appends exactly one transaction in the same atomic unit, bumps the wallet
version exactly once, and the transaction's signed amount (positive for
credit, negative for debit) equals the balance delta, with snapshots
satisfying `balance_after = balance_before + amount`. -/
theorem C5_ledger_mutation_audit (s : LedgerState) (w : Wallet) (amount : ℤ) (jid : Option Nat)
    (descr : String) (hw : s.wallet? = some w) :
    (∀ s2 t, BillingService.add_credits s amount descr = (s2, Except.ok t) →
      s2.transactions = s.transactions ++ [t] ∧
      ∃ w2, s2.wallet? = some w2 ∧ w2.version = w.version + 1 ∧
        t.type = TransactionType.credit ∧ t.amount = amount ∧
        w2.balance - w.balance = t.amount ∧ t.balance_before = w.balance ∧
        t.balance_after = w2.balance ∧ t.balance_after = t.balance_before + t.amount) ∧
    (∀ s2 t, BillingService.debit_for_job s jid amount descr = (s2, Except.ok t) →
      s2.transactions = s.transactions ++ [t] ∧
      ∃ w2, s2.wallet? = some w2 ∧ w2.version = w.version + 1 ∧
        t.type = TransactionType.debit ∧ t.amount = -amount ∧
        w2.balance - w.balance = t.amount ∧ t.balance_before = w.balance ∧
        t.balance_after = w2.balance ∧ t.balance_after = t.balance_before + t.amount) := by
  obtain ⟨w?, txs⟩ := s
  cases hw
  constructor
  · intro s2 t heq
    simp only [BillingService.add_credits] at heq
    injection heq with h1 h2
    subst h1
    injection h2 with h3
    subst h3
    refine ⟨rfl, { w with balance := w.balance + amount, version := w.version + 1 },
      rfl, rfl, rfl, rfl, ?_, rfl, rfl, ?_⟩
    · ring
    · rfl
  · intro s2 t heq
    by_cases hlt : w.available_balance < amount
    · simp only [BillingService.debit_for_job, if_pos hlt] at heq
      exact absurd (congrArg Prod.snd heq) (by simp)
    · simp only [BillingService.debit_for_job, if_neg hlt] at heq
      injection heq with h1 h2
      subst h1
      injection h2 with h3
      subst h3
      refine ⟨rfl, { w with balance := w.balance - amount, version := w.version + 1 },
        rfl, rfl, rfl, rfl, ?_, rfl, rfl, ?_⟩
      · ring
      · ring

/-- Concrete instantiation of `C5_ledger_mutation_audit`: crediting 0.50 to a
one-dollar wallet appends exactly that transaction to the empty log. -/
theorem C5_ledger_mutation_audit_witness :
    ((BillingService.add_credits ledger1 500000000000000000 "Credit top-up").1).transactions
      = ledger1.transactions ++
        [{ wallet_id := 5, job_id := none, type := TransactionType.credit,
           amount := 500000000000000000, balance_before := 1000000000000000000,
           balance_after := 1500000000000000000, description := "Credit top-up" }] :=
  ((C5_ledger_mutation_audit ledger1 (sampleWallet 1000000000000000000) 500000000000000000 none
    "Credit top-up" rfl).1 (BillingService.add_credits ledger1 500000000000000000 "Credit top-up").1
    { wallet_id := 5, job_id := none, type := TransactionType.credit,
      amount := 500000000000000000, balance_before := 1000000000000000000,
      balance_after := 1500000000000000000, description := "Credit top-up" } (by decide)).1

/-! ### C6 -/

/-- C6: whenever the caller's wallet is missing or its `available_balance` is
strictly below `MINIMUM_BALANCE_TO_START`, the job-creation endpoint rejects
with the HTTP 402 `InsufficientFunds` error before touching anything: the
returned state is the input state, so zero job rows exist for the
submission. -/
theorem C6_admission_rejection (s : SubmissionState) (uid : Nat) (script memory : String)
    (timeout : Int) (now : Nat)
    (hlow : ∀ w, s.wallet? = some w →
      w.available_balance < settings.MINIMUM_BALANCE_TO_START) :
    create_job_endpoint s uid script memory timeout now
      = (s, Except.error "402 InsufficientFunds") := by
  obtain ⟨w?, jobs⟩ := s
  rcases w? with _ | w
  · simp [create_job_endpoint, BillingService.can_start_job]
  · have hlt := hlow w rfl
    have hfalse : BillingService.can_start_job (some w) = false := by
      simp only [BillingService.can_start_job, Wallet.can_start_job,
        decide_eq_false_iff_not, not_le]
      exact hlt
    simp only [create_job_endpoint, hfalse, if_pos]

/-- Concrete instantiation of `C6_admission_rejection`: available balance
0.40 against minimum 0.50 (the spec's Scenario B) — rejected, job table
still empty. -/
theorem C6_admission_rejection_witness :
    create_job_endpoint submission04 10 "train.py" "8g" 3600 0
      = (submission04, Except.error "402 InsufficientFunds") :=
  C6_admission_rejection submission04 10 "train.py" "8g" 3600 0
    (by intro w hw; cases hw; decide)

/-! ### C7 -/

/-- C7 counterexample: applying the same COMPLETED status-update message
twice (at processing times 1 and 2) does not yield the same job state as
applying it once — the replay re-stamps `completed_at` with the later
processing time, so replay is not idempotent on all fields. -/
theorem C7_counterexample :
    JobService.update_status (JobService.update_status sampleJob
        (JobService.statusOnly JobStatus.COMPLETED) 1)
      (JobService.statusOnly JobStatus.COMPLETED) 2
    ≠ JobService.update_status sampleJob (JobService.statusOnly JobStatus.COMPLETED) 1 := by
  decide

/-- C7 amended: replaying the same status-update message changes nothing
except that `queued_at` (for a PENDING message) and `completed_at` (for a
terminal message) are re-stamped with the replay's processing time; every
other field — in particular `started_at`, which is set on the first
transition into RUNNING and never overwritten — is exactly as after the
first application. -/
theorem C7_replay_restamps_timestamps (j : Job) (u : StatusUpdate) (now1 now2 : Nat) :
    JobService.update_status (JobService.update_status j u now1) u now2 =
      { JobService.update_status j u now1 with
        queued_at := if u.status = JobStatus.PENDING then some now2
          else (JobService.update_status j u now1).queued_at,
        completed_at := if u.status = JobStatus.COMPLETED ∨ u.status = JobStatus.FAILED ∨
            u.status = JobStatus.CANCELLED ∨ u.status = JobStatus.KILLED_NO_CREDITS then some now2
          else (JobService.update_status j u now1).completed_at } := by
  obtain ⟨us, uc, ue, ur, ux⟩ := u
  obtain ⟨f1, f2, f3, f4, f5, f6, f7, f8, f9, f10⟩ :=
    update_status_frame (JobService.update_status j ⟨us, uc, ue, ur, ux⟩ now1)
      ⟨us, uc, ue, ur, ux⟩ now2
  refine Job.ext f1 f2 ?_ f3 f4 f5 f6 ?_ f7 f8 f9 ?_ ?_ ?_ ?_ f10 ?_ ?_
  · simp only [update_status_sets_status]
  · simp only [update_status_container_id]
    rcases uc with _ | c
    · rfl
    · by_cases hc : c = "" <;> simp [hc]
  · simp only [update_status_queued_at]
  · simp only [update_status_started_at]
    by_cases hr : us = JobStatus.RUNNING <;> simp [hr]
  · simp only [update_status_completed_at]
  · simp only [update_status_runtime_seconds]
    rcases ur with _ | r <;> rfl
  · simp only [update_status_error_message]
    rcases ue with _ | e
    · rfl
    · by_cases he : e = "" <;> simp [he]
  · simp only [update_status_exit_code]
    rcases ux with _ | x <;> rfl

/-! ### C8 -/

/-- C8 counterexample: the per-minute cost actually debited,
`Decimal(str(0.50 / 60))`, has 18 fractional digits (not 2), and
`add_credits` happily accepts an amount with 3 fractional digits (0.001) and
a negative amount (-1.00) — no mutating ledger operation rejects them. -/
theorem C8_counterexample :
    ¬ hasAtMostTwoDecimals settings.CREDITS_PER_MINUTE ∧
    ((BillingService.add_credits ledger1 1000000000000000 "Credit top-up").2).isOk = true ∧
    ((BillingService.add_credits ledger1 (-1000000000000000000) "Credit top-up").2).isOk = true := by
  refine ⟨by decide, by decide, by decide⟩

/-- C8 amended: monetary amounts are exact `Decimal`s at the service layer,
but the per-minute cost is derived from the binary float `0.50 / 60` and has
more than two fractional digits, and the mutating ledger operations validate
nothing about their amount argument: `add_credits` accepts any amount
(including ≤ 0 or with more than 2 fractional digits) whenever the wallet
exists, and `debit_for_job` accepts any amount not exceeding the available
balance. -/
theorem C8_no_validation (s : LedgerState) (w : Wallet) (amount : ℤ) (jid : Option Nat)
    (descr : String) (hw : s.wallet? = some w) :
    ¬ hasAtMostTwoDecimals settings.CREDITS_PER_MINUTE ∧
    ((BillingService.add_credits s amount descr).2).isOk = true ∧
    (amount ≤ w.available_balance →
      ((BillingService.debit_for_job s jid amount descr).2).isOk = true) := by
  obtain ⟨w?, txs⟩ := s
  cases hw
  refine ⟨by decide, rfl, ?_⟩
  intro hle
  simp only [BillingService.debit_for_job, if_neg (not_lt.mpr hle)]
  rfl

/-- Concrete instantiation of `C8_no_validation`: a credit of -1.00 and a
debit of 0.001 both succeed. -/
theorem C8_no_validation_witness :
    ((BillingService.add_credits ledger1 (-1000000000000000000) "x").2).isOk = true ∧
    ((BillingService.debit_for_job ledger1 (some 1) 1000000000000000 "x").2).isOk = true := by
  have h := C8_no_validation ledger1 (sampleWallet 1000000000000000000)
    (-1000000000000000000) none "x" rfl
  have h2 := C8_no_validation ledger1 (sampleWallet 1000000000000000000)
    1000000000000000 (some 1) "x" rfl
  exact ⟨h.2.1, h2.2.2 (by decide)⟩

/-! ### C10 -/

/-- C10: when `check_and_bill`'s debit succeeds, the job record is updated by
exactly: `total_cost` increased by the per-minute cost (accumulating) and
`runtime_seconds` overwritten with `runtime_minutes * 60` (not accumulated);
every other `Job` field — status, all timestamps, container_id, exit_code,
error_message, paths, image, resource config, ids — is unchanged. -/
theorem C10_billing_frame (s : BillState) (j : Job) (w : Wallet) (m : Int)
    (hj : s.job? = some j) (hw : s.wallet? = some w)
    (hge : settings.CREDITS_PER_MINUTE ≤ w.available_balance) :
    ∃ j2, (BillingService.check_and_bill s m).1.job? = some j2 ∧
      j2.total_cost = j.total_cost + settings.CREDITS_PER_MINUTE ∧
      j2.runtime_seconds = m * 60 ∧
      j2.id = j.id ∧ j2.user_id = j.user_id ∧ j2.status = j.status ∧
      j2.script_path = j.script_path ∧ j2.dataset_path = j.dataset_path ∧
      j2.output_path = j.output_path ∧ j2.logs_path = j.logs_path ∧
      j2.container_id = j.container_id ∧ j2.docker_image = j.docker_image ∧
      j2.resource_config = j.resource_config ∧ j2.created_at = j.created_at ∧
      j2.queued_at = j.queued_at ∧ j2.started_at = j.started_at ∧
      j2.completed_at = j.completed_at ∧ j2.error_message = j.error_message ∧
      j2.exit_code = j.exit_code := by
  obtain ⟨j?, w?, txs⟩ := s
  cases hj
  cases hw
  rw [check_and_bill_sufficient _ _ _ _ hge]
  exact ⟨_, rfl, rfl, rfl, rfl, rfl, rfl, rfl, rfl, rfl, rfl, rfl, rfl, rfl, rfl, rfl, rfl,
    rfl, rfl, rfl⟩

/-- Concrete instantiation of `C10_billing_frame`: billing `sampleJob` for
minute 2 accumulates one cost and sets runtime to 120 seconds, status
untouched. -/
theorem C10_billing_frame_witness :
    ∃ j2, (BillingService.check_and_bill billReady 2).1.job? = some j2 ∧
      j2.total_cost = sampleJob.total_cost + settings.CREDITS_PER_MINUTE ∧
      j2.runtime_seconds = 120 ∧ j2.status = sampleJob.status := by
  obtain ⟨j2, h1, hc, hr, _, _, hs, _⟩ := C10_billing_frame billReady sampleJob
    (sampleWallet 1000000000000000000) 2 rfl rfl (by decide)
  refine ⟨j2, h1, hc, ?_, hs⟩
  rw [hr]
  decide

end GpuCloud
